import Mathlib

/-!
# Verification of the messageformat runtime support primitives

Shallow embedding of `packages/messageformat` runtime code (the `Runtime`
class: `defaultNumber`, `strictNumber`, `plural`, `select`, the constructor,
and the entry enumeration of `toString`) over a small model of JavaScript
values, together with proofs of the specification's claims about them.
-/

set_option autoImplicit false

deriving instance DecidableEq for Except

namespace MF

/-- A model of the JavaScript values the runtime primitives operate on:
numbers (integer fragment, with `nan` as a separate marker), strings,
booleans, `null` and `undefined`. -/
inductive JSVal where
  | num (n : Int)
  | nan
  | str (s : String)
  | bool (b : Bool)
  | null
  | undef
deriving DecidableEq, Repr

/-- Whitespace for the `ToNumber` trimming step. -/
def isWs (c : Char) : Bool :=
  c == ' ' || c == '\t' || c == '\n' || c == '\r'

/-- Decimal digit test on characters. -/
def isDigitCh (c : Char) : Bool :=
  48 ≤ c.toNat && c.toNat ≤ 57

/-- Decimal-integer fragment of JavaScript `ToNumber` on strings: the string
is trimmed; an empty remainder is `0`; an optional `-` sign followed by
decimal digits is that integer; anything else is `NaN` (`none`). -/
def strToNumber (s : String) : Option Int :=
  let t := ((s.toList.dropWhile isWs).reverse.dropWhile isWs).reverse
  if t.isEmpty then some 0
  else
    let neg := t.head? == some '-'
    let ds := if neg then t.drop 1 else t
    if ds.isEmpty then none
    else if ds.all isDigitCh then
      let n : Nat := ds.foldl (fun a c => a * 10 + (c.toNat - 48)) 0
      some (if neg then -(n : Int) else (n : Int))
    else none

/-- JavaScript `ToNumber`, with `none` standing for `NaN`. -/
def toNumber : JSVal → Option Int
  | .num n => some n
  | .nan => none
  | .str s => strToNumber s
  | .bool b => some (if b then 1 else 0)
  | .null => some 0
  | .undef => none

/-- The global `isNaN(v)`: coerces with `ToNumber` and tests for `NaN`. -/
def jsIsNaN (v : JSVal) : Bool :=
  (toNumber v).isNone

/-- JavaScript truthiness. -/
def truthy : JSVal → Bool
  | .num n => n != 0
  | .nan => false
  | .str s => !s.isEmpty
  | .bool b => b
  | .null => false
  | .undef => false

/-- JavaScript `String(v)` on the modelled values. -/
def jsToString : JSVal → String
  | .num n => toString n
  | .nan => "NaN"
  | .str s => s
  | .bool b => if b then "true" else "false"
  | .null => "null"
  | .undef => "undefined"

/-- `JSON.stringify(v)` as it appears inside the runtime's error messages
(string-escaping fragment: plain strings only; `JSON.stringify(undefined)`
is `undefined`, which string concatenation renders as `"undefined"`). -/
def jsonStringify : JSVal → String
  | .num n => toString n
  | .nan => "null"
  | .str s => "\"" ++ s ++ "\""
  | .bool b => if b then "true" else "false"
  | .null => "null"
  | .undef => "undefined"

/-- JavaScript binary `-` on the modelled values: both operands go through
`ToNumber`; `NaN` is absorbing. -/
def jsSub (a b : JSVal) : JSVal :=
  match toNumber a, toNumber b with
  | some x, some y => .num (x - y)
  | _, _ => .nan

/-- The error message built by `Runtime.defaultNumber` when the offset is
non-zero and the value is non-numerical. -/
def defaultNumberMsg (offset : JSVal) (name : String) (value : JSVal) : String :=
  "Can't apply offset:" ++ jsToString offset ++ " to argument `" ++ name ++
    "` with non-numerical value " ++ jsonStringify value ++ "."

/-- `Runtime.defaultNumber(value, name, offset)`:
`if (!offset) return value; if (isNaN(value)) throw ...; return value - offset;`. -/
def defaultNumber (value : JSVal) (name : String) (offset : JSVal) :
    Except String JSVal :=
  if !truthy offset then .ok value
  else if jsIsNaN value then .error (defaultNumberMsg offset name value)
  else .ok (jsSub value offset)

/-- The error message built by `Runtime.strictNumber` for a non-numerical
value. -/
def strictNumberMsg (name : String) (value : JSVal) : String :=
  "Argument `" ++ name ++ "` has non-numerical value " ++
    jsonStringify value ++ "."

/-- `Runtime.strictNumber(value, name, offset)`:
`if (isNaN(value)) throw ...; return value - (offset || 0);`. -/
def strictNumber (value : JSVal) (name : String) (offset : JSVal) :
    Except String JSVal :=
  if jsIsNaN value then .error (strictNumberMsg name value)
  else .ok (jsSub value (if truthy offset then offset else .num 0))

/-- Own-property lookup on a cases object, modelled as an association list
(compiled case objects are plain literals with unique keys, so
`{}.hasOwnProperty.call(data, k)`, `k in data` and `data[k]` all reduce to
this lookup; `none` is JavaScript `undefined`). -/
def getOwn (data : List (String × String)) (k : String) : Option String :=
  match data with
  | [] => none
  | (k', v) :: rest => if k' = k then some v else getOwn rest k

/-- The value the `plural` runtime primitive hands to the locale function:
`if (offset) value -= offset;` — the raw value when `offset` is falsy,
`value - offset` otherwise. -/
def pluralAdjust (value offset : JSVal) : JSVal :=
  if truthy offset then jsSub value offset else value

/-- `Runtime#plural(value, offset, lcfunc, data, isOrdinal)`:
exact own-property match on the raw value first, then
`if (offset) value -= offset; var key = lcfunc(value, isOrdinal);`
and `key in data ? data[key] : data.other`. -/
def plural (value offset : JSVal) (lcfunc : JSVal → Bool → String)
    (data : List (String × String)) (isOrdinal : Bool) : Option String :=
  match getOwn data (jsToString value) with
  | some r => some r
  | none =>
    let key := lcfunc (pluralAdjust value offset) isOrdinal
    match getOwn data key with
    | some r => some r
    | none => getOwn data "other"

/-- `Runtime#select(value, data)`:
`{}.hasOwnProperty.call(data, value) ? data[value] : data.other`. -/
def select (value : JSVal) (data : List (String × String)) : Option String :=
  match getOwn data (jsToString value) with
  | some r => some r
  | none => getOwn data "other"

/-- The plural dispatch as §4.3 of the spec words it: an exact match on
`cases[String(value)]` (pre-offset) takes precedence; otherwise
`adjusted = value - (offset || 0)`, `category = pluralRuleFn(adjusted,
isOrdinal)`, and the result is `cases[category]` if present, else
`cases.other`. Stated from the spec's words for comparison with `plural`. -/
def specPlural (value offset : JSVal) (lcfunc : JSVal → Bool → String)
    (data : List (String × String)) (isOrdinal : Bool) : Option String :=
  match getOwn data (jsToString value) with
  | some r => some r
  | none =>
    let adjusted := jsSub value (if truthy offset then offset else .num 0)
    let key := lcfunc adjusted isOrdinal
    match getOwn data key with
    | some r => some r
    | none => getOwn data "other"

/-- The option record destructured by the `Runtime` constructor
(`{ strictNumberSign }`); the field holds whatever value the caller
supplied, tested for truthiness. -/
structure RtOptions where
  strictNumberSign : JSVal

/-- A `Runtime` instance: the fields set by the constructor. `plural` and
`select` are per-instance copies of the functions above; `compiler` and
`pluralFuncs` are stored as given. -/
structure Runtime (C P : Type) where
  number : JSVal → String → JSVal → Except String JSVal
  compiler : C
  pluralFuncs : P

/-- The `Runtime` constructor:
`this.number = strictNumberSign ? Runtime.strictNumber : Runtime.defaultNumber;
this.compiler = compiler; this.pluralFuncs = pluralFuncs;`. -/
def Runtime.make {C P : Type} (opts : RtOptions) (compiler : C)
    (pluralFuncs : P) : Runtime C P :=
  { number := if truthy opts.strictNumberSign then strictNumber
              else defaultNumber
    compiler := compiler
    pluralFuncs := pluralFuncs }

/-- JavaScript object-property assignment `obj[k] = v` on an
insertion-ordered object modelled as an association list: an existing key
keeps its position and gets the new value, a new key is appended. -/
def objInsert {α : Type} (obj : List (String × α)) (k : String) (v : α) :
    List (String × α) :=
  if obj.any (fun p => p.1 = k) then
    obj.map (fun p => if p.1 = k then (k, v) else p)
  else obj ++ [(k, v)]

/-- The object assembled by `Runtime#toString` before stringification:
one entry per key of `this.compiler.locales` (named through `funcname`,
valued from `this.pluralFuncs`), then one entry per key of
`this.compiler.runtime` (valued from the instance itself), then a `fmt`
entry exactly when `this.compiler.formatters` has at least one key.
Entry values are opaque here (`α`): the claims concern which entries are
emitted, and `_stringify` prints one `var k = v;` per entry of this object. -/
def toStringObj {α : Type} (funcname : String → String)
    (localeKeys : List String) (pluralFuncs : String → α)
    (runtimeKeys : List String) (self : String → α)
    (fmtKeys : List String) (fmtVal : α) : List (String × α) :=
  let o1 := localeKeys.foldl (fun o lc => objInsert o (funcname lc) (pluralFuncs lc)) []
  let o2 := runtimeKeys.foldl (fun o fn => objInsert o fn (self fn)) o1
  if fmtKeys.length > 0 then objInsert o2 "fmt" fmtVal else o2

/-- Modelled from the spec: the English plural-rule function supplied by the
external Plural-Rule Registry (§2, §4.4 — the registry itself is not among
the sources). Cardinal: `one` exactly for 1; ordinal: `one`/`two`/`few` for
1st/2nd/3rd pattern mod 10 outside the teens. Non-numeric input falls to
`other`. -/
def enPlural (v : JSVal) (isOrdinal : Bool) : String :=
  match v with
  | .num n =>
    if isOrdinal then
      if n % 10 = 1 ∧ n % 100 ≠ 11 then "one"
      else if n % 10 = 2 ∧ n % 100 ≠ 12 then "two"
      else if n % 10 = 3 ∧ n % 100 ≠ 13 then "few"
      else "other"
    else if n = 1 then "one" else "other"
  | _ => "other"

/-- Modelled from the spec: the compiled form of
`"{count, plural, offset:1 =0{no one} one{you and one other} other{you and # others}}"`
for English. The compiler itself is not among the sources; the spec (§4.2,
§8) spells out the compiled shape — a call to the runtime `plural` with
offset 1 over the three case strings, the `#` in the `other` case rendered
through the `number` primitive (default mode) with the raw argument and the
offset. Case values are evaluated before `plural` is entered, so a `number`
error propagates. -/
def exampleMsg (count : Int) : Except String (Option String) := do
  let h ← defaultNumber (.num count) "count" (.num 1)
  pure (plural (.num count) (.num 1) enPlural
    [("0", "no one"), ("one", "you and one other"),
     ("other", "you and " ++ jsToString h ++ " others")] false)

end MF

namespace MF

example : defaultNumber (.str "x") "n" (.num 0) = .ok (.str "x") := by rfl

example : strictNumber (.str "x") "n" (.num 0) =
    .error "Argument `n` has non-numerical value \"x\"." := by decide

example : defaultNumber (.num 5) "n" (.num 2) = .ok (.num 3) := by rfl

example : select (.str "A") [("a", "low"), ("other", "oth")] = some "oth" := by
  rfl

example : exampleMsg 0 = .ok (some "no one") := by decide

example : exampleMsg 1 = .ok (some "you and 0 others") := by decide

example : exampleMsg 3 = .ok (some "you and 2 others") := by decide

/-- Replacing the value at a key leaves the key list of an object
unchanged. -/
theorem map_replace_keys {α : Type} (o : List (String × α)) (k : String)
    (v : α) :
    (o.map (fun p => if p.1 = k then (k, v) else p)).map Prod.fst =
      o.map Prod.fst := by
  induction o with
  | nil => rfl
  | cons p t ih =>
    by_cases h : p.1 = k
    · simp [h, ih]
    · simp [h, ih]

/-- Membership in the key list after one object-property assignment. -/
theorem mem_objInsert_keys {α : Type} (o : List (String × α)) (k x : String)
    (v : α) :
    x ∈ (objInsert o k v).map Prod.fst ↔ x ∈ o.map Prod.fst ∨ x = k := by
  unfold objInsert
  split
  case isTrue h =>
    rw [map_replace_keys]
    constructor
    · exact Or.inl
    · rintro (hx | rfl)
      · exact hx
      · rcases List.any_eq_true.mp h with ⟨p, hp, hpk⟩
        exact List.mem_map.mpr ⟨p, hp, of_decide_eq_true hpk⟩
  case isFalse h =>
    simp [List.mem_append]

/-- Membership in the key list after a loop of object-property
assignments. -/
theorem mem_foldl_objInsert_keys {α β : Type} (f : β → String) (g : β → α)
    (l : List β) (o : List (String × α)) (x : String) :
    x ∈ (l.foldl (fun acc b => objInsert acc (f b) (g b)) o).map Prod.fst ↔
      x ∈ o.map Prod.fst ∨ ∃ b ∈ l, f b = x := by
  induction l generalizing o with
  | nil => simp
  | cons b t ih =>
    simp only [List.foldl_cons, ih, mem_objInsert_keys]
    constructor
    · rintro ((hx | rfl) | ⟨b', hb', rfl⟩)
      · exact Or.inl hx
      · exact Or.inr ⟨b, List.mem_cons_self b t, rfl⟩
      · exact Or.inr ⟨b', List.mem_cons_of_mem b hb', rfl⟩
    · rintro (hx | ⟨b', hb', rfl⟩)
      · exact Or.inl (Or.inl hx)
      · rcases List.mem_cons.mp hb' with rfl | hb'
        · exact Or.inl (Or.inr rfl)
        · exact Or.inr ⟨b', hb', rfl⟩

/-- C1 counterexample: with offset `0`, `strictNumber` does not return a
non-numeric value unchanged — on the value `"x"` it throws instead, so the
claim that `number(v, name, 0) === v` holds for every `v` in both modes is
false for the strict mode. -/
theorem number_zero_offset_strict_cex :
    strictNumber (JSVal.str "x") "n" (JSVal.num 0) ≠
      Except.ok (JSVal.str "x") := by
  decide

/-- C1 (amended): with offset `0` or absent, `defaultNumber` returns every
value unchanged with no type check; `strictNumber` returns the value
unchanged only for actual non-NaN numbers, and throws on any non-numeric
value even when the offset is `0`. -/
theorem number_zero_offset_identity (v : JSVal) (name : String) (n : Int) :
    defaultNumber v name (.num 0) = .ok v ∧
    defaultNumber v name .undef = .ok v ∧
    strictNumber (.num n) name (.num 0) = .ok (.num n) ∧
    strictNumber (.num n) name .undef = .ok (.num n) ∧
    (jsIsNaN v = true → ∃ e, strictNumber v name (.num 0) = .error e) := by
  refine ⟨?_, rfl, ?_, ?_, ?_⟩
  · simp [defaultNumber, truthy]
  · simp [strictNumber, jsIsNaN, toNumber, truthy, jsSub]
  · simp [strictNumber, jsIsNaN, toNumber, truthy, jsSub]
  · intro h
    exact ⟨strictNumberMsg name v, by simp [strictNumber, h]⟩

/-- C1 witness: the amended theorem applied at the value `"x"`. -/
theorem number_zero_offset_identity_witness :
    ∃ e, strictNumber (JSVal.str "x") "n" (JSVal.num 0) = Except.error e :=
  (number_zero_offset_identity (JSVal.str "x") "n" 0).2.2.2.2 (by decide)

/-- C2: with a non-zero offset, `defaultNumber` throws (with an error
naming the argument) exactly when the value is non-numeric and otherwise
returns `value - offset`; `strictNumber` throws exactly when the value is
non-numeric, for every offset, and otherwise returns
`value - (offset || 0)`. -/
theorem number_nonzero_offset_error_iff (v : JSVal) (name : String)
    (k : Int) (hk : k ≠ 0) :
    ((∃ e, defaultNumber v name (.num k) = .error e) ↔ jsIsNaN v = true) ∧
    (∀ off : JSVal,
      (∃ e, strictNumber v name off = .error e) ↔ jsIsNaN v = true) ∧
    (jsIsNaN v = false →
      defaultNumber v name (.num k) = .ok (jsSub v (.num k)) ∧
      ∀ off : JSVal, strictNumber v name off =
        .ok (jsSub v (if truthy off then off else .num 0))) ∧
    (jsIsNaN v = true →
      defaultNumber v name (.num k) =
        .error (defaultNumberMsg (.num k) name v) ∧
      ∀ off : JSVal,
        strictNumber v name off = .error (strictNumberMsg name v)) := by
  have htr : truthy (.num k) = true := by simp [truthy, bne_iff_ne, hk]
  cases hnn : jsIsNaN v with
  | true =>
    refine ⟨?_, ?_, ?_, ?_⟩
    · simp [defaultNumber, htr, hnn]
    · intro off; simp [strictNumber, hnn]
    · intro h; exact Bool.noConfusion h
    · intro _
      exact ⟨by simp [defaultNumber, htr, hnn],
        fun off => by simp [strictNumber, hnn]⟩
  | false =>
    refine ⟨?_, ?_, ?_, ?_⟩
    · simp [defaultNumber, htr, hnn]
    · intro off; simp [strictNumber, hnn]
    · intro _
      exact ⟨by simp [defaultNumber, htr, hnn],
        fun off => by simp [strictNumber, hnn]⟩
    · intro h; exact Bool.noConfusion h

/-- C2 witness: at the non-numeric value `"x"` and offset `2`, the default
mode throws. -/
theorem number_nonzero_offset_error_iff_witness :
    ∃ e, defaultNumber (JSVal.str "x") "n" (JSVal.num 2) = Except.error e :=
  (number_nonzero_offset_error_iff (JSVal.str "x") "n" 2 (by decide)).1.mpr
    (by decide)

/-- C3: on numeric values, `plural` implements exactly the spec's formula —
exact pre-offset match first, then the category of `value - (offset || 0)`,
then `other`; in particular an exact match wins even when the computed
category differs, as the concrete second conjunct shows. -/
theorem plural_matches_spec (n : Int) (off : JSVal)
    (lcfunc : JSVal → Bool → String) (data : List (String × String))
    (ord : Bool) :
    plural (.num n) off lcfunc data ord =
      specPlural (.num n) off lcfunc data ord ∧
    plural (.num 1) (.num 0) (fun _ _ => "other")
      [("1", "ONE"), ("other", "OTH")] false = some "ONE" := by
  constructor
  · cases htr : truthy off with
    | true => simp [plural, specPlural, pluralAdjust, htr]
    | false => simp [plural, specPlural, pluralAdjust, htr, jsSub, toNumber]
  · decide

/-- C4: `select` looks the raw value up among the case keys by exact string
identity, returning the matched case when present and falling through to
`other` for any unmatched value; matching is case-sensitive, as the
concrete third conjunct shows (`"A"` does not match the declared `"a"`). -/
theorem select_exact_match (s : String) (data : List (String × String)) :
    (∀ r, getOwn data s = some r → select (.str s) data = some r) ∧
    (getOwn data s = none → select (.str s) data = getOwn data "other") ∧
    select (.str "A") [("a", "low"), ("other", "oth")] = some "oth" := by
  refine ⟨?_, ?_, by decide⟩
  · intro r h; simp [select, jsToString, h]
  · intro h; simp [select, jsToString, h]

/-- C4 witness: a declared key is returned exactly. -/
theorem select_exact_match_witness :
    select (JSVal.str "a") [("a", "low"), ("other", "oth")] = some "low" :=
  (select_exact_match "a" [("a", "low"), ("other", "oth")]).1 "low" (by decide)

/-- C5: whenever the (stringified) argument value is a declared case key,
both `plural` and `select` return exactly that case's text — the
exact-match branch fires for declared keys, independent of offset and
plural-rule function. -/
theorem declared_case_key_returns_case (v off : JSVal)
    (lcfunc : JSVal → Bool → String) (data : List (String × String))
    (ord : Bool) (r : String) (h : getOwn data (jsToString v) = some r) :
    plural v off lcfunc data ord = some r ∧ select v data = some r := by
  exact ⟨by simp [plural, h], by simp [select, h]⟩

/-- C5 witness: the theorem applied at value `2` over a cases map declaring
the key `"2"`. -/
theorem declared_case_key_returns_case_witness :
    plural (JSVal.num 2) (JSVal.num 0) (fun _ _ => "other")
      [("2", "two!"), ("other", "oth")] false = some "two!" ∧
    select (JSVal.num 2) [("2", "two!"), ("other", "oth")] = some "two!" :=
  declared_case_key_returns_case (JSVal.num 2) (JSVal.num 0)
    (fun _ _ => "other") [("2", "two!"), ("other", "oth")] false "two!"
    (by decide)

/-- C6 counterexample: for the compiled offset example, `count = 1` yields
`"you and 0 others"` (offset 1 adjusts the value to 0, whose English
cardinal category is `other`, and `#` renders `1 - 1`), not the claimed
`"you and one other"`. -/
theorem offset_example_count_one_cex :
    exampleMsg 1 ≠ Except.ok (some "you and one other") := by decide

/-- C6 (amended): the compiled offset example yields `"no one"` for
`count = 0`, `"you and 0 others"` for `count = 1` (the claimed
`"you and one other"` instead arises at `count = 2`), and
`"you and 2 others"` for `count = 3`. -/
theorem offset_example_values :
    exampleMsg 0 = .ok (some "no one") ∧
    exampleMsg 1 = .ok (some "you and 0 others") ∧
    exampleMsg 2 = .ok (some "you and one other") ∧
    exampleMsg 3 = .ok (some "you and 2 others") := by
  exact ⟨by decide, by decide, by decide, by decide⟩

/-- C7: the object `Runtime#toString` renders (one `var` entry per key)
contains a name exactly when that name is a locale plural-function entry
(a compiler locale key through `funcname`), a referenced runtime helper
key, or the `fmt` table in the presence of at least one referenced
formatter — every dependency is emitted and nothing unused ever is. -/
theorem toString_emits_exactly_dependencies {α : Type}
    (funcname : String → String) (localeKeys : List String)
    (pluralFuncs : String → α) (runtimeKeys : List String)
    (self : String → α) (fmtKeys : List String) (fmtVal : α) (x : String) :
    x ∈ (toStringObj funcname localeKeys pluralFuncs runtimeKeys self
        fmtKeys fmtVal).map Prod.fst ↔
      (∃ lc ∈ localeKeys, funcname lc = x) ∨ x ∈ runtimeKeys ∨
        (0 < fmtKeys.length ∧ x = "fmt") := by
  unfold toStringObj
  by_cases hf : 0 < fmtKeys.length
  · simp only [hf, if_pos, mem_objInsert_keys, mem_foldl_objInsert_keys,
      List.map_nil, List.not_mem_nil, false_or, true_and]
    constructor
    · rintro ((h | h) | rfl)
      · exact Or.inl h
      · rcases h with ⟨b, hb, rfl⟩
        exact Or.inr (Or.inl hb)
      · exact Or.inr (Or.inr rfl)
    · rintro (h | h | rfl)
      · exact Or.inl (Or.inl h)
      · exact Or.inl (Or.inr ⟨x, h, rfl⟩)
      · exact Or.inr rfl
  · simp only [hf, if_neg, if_false, mem_foldl_objInsert_keys,
      List.map_nil, List.not_mem_nil, false_or, false_and, or_false]
    constructor
    · rintro (h | ⟨b, hb, rfl⟩)
      · exact Or.inl h
      · exact Or.inr hb
    · rintro (h | h)
      · exact Or.inl h
      · exact Or.inr ⟨x, h, rfl⟩

/-- C7 witness: with one locale, two runtime helpers and one formatter
referenced, the `fmt` entry is emitted. -/
theorem toString_emits_exactly_dependencies_witness :
    "fmt" ∈ (toStringObj (fun s => s) ["en"] (fun _ => 0)
      ["number", "plural"] (fun _ => 0) ["upcase"] 0).map Prod.fst :=
  (toString_emits_exactly_dependencies (fun s => s) ["en"] (fun _ => 0)
    ["number", "plural"] (fun _ => 0) ["upcase"] 0 "fmt").mpr
    (Or.inr (Or.inr ⟨by decide, rfl⟩))

/-- C8: the constructor binds the instance's `number` field once, to
`strictNumber` exactly when `strictNumberSign` is set (truthy) and to
`defaultNumber` otherwise; the two variants are genuinely different
functions, so the binding is observable. -/
theorem runtime_number_binding {C P : Type} (opts : RtOptions) (c : C)
    (p : P) :
    (Runtime.make opts c p).number =
      (if truthy opts.strictNumberSign then strictNumber
       else defaultNumber) ∧
    (Runtime.make ⟨.bool true⟩ c p).number = strictNumber ∧
    (Runtime.make ⟨.bool false⟩ c p).number = defaultNumber ∧
    strictNumber ≠ defaultNumber := by
  refine ⟨rfl, rfl, rfl, ?_⟩
  intro h
  have hx := congrFun (congrFun (congrFun h (JSVal.str "x")) "n")
    (JSVal.num 0)
  exact absurd hx (by decide)

/-- C8 witness: the binding at a concrete truthy option value. -/
theorem runtime_number_binding_witness :
    (Runtime.make ⟨JSVal.bool true⟩ (0 : Nat) (0 : Nat)).number =
      strictNumber :=
  (runtime_number_binding ⟨JSVal.bool true⟩ (0 : Nat) (0 : Nat)).2.1

/-- C9: when the cases map declares neither the stringified value, nor the
computed category, nor `other`, `plural` returns `undefined` (`none`)
rather than raising an error, and likewise `select` when it declares
neither the value nor `other`. -/
theorem missing_other_yields_undefined (v off : JSVal)
    (lcfunc : JSVal → Bool → String) (data : List (String × String))
    (ord : Bool)
    (h1 : getOwn data (jsToString v) = none)
    (h2 : getOwn data (lcfunc (pluralAdjust v off) ord) = none)
    (h3 : getOwn data "other" = none) :
    plural v off lcfunc data ord = none ∧ select v data = none := by
  exact ⟨by simp [plural, h1, h2, h3], by simp [select, h1, h3]⟩

/-- C9 witness: the empty cases map at value `5`. -/
theorem missing_other_yields_undefined_witness :
    plural (JSVal.num 5) (JSVal.num 0) (fun _ _ => "one") [] false = none ∧
    select (JSVal.num 5) [] = none :=
  missing_other_yields_undefined (JSVal.num 5) (JSVal.num 0)
    (fun _ _ => "one") [] false rfl rfl rfl

/-- C10: `defaultNumber` treats every falsy offset — `0`, `null`,
`undefined`, `NaN` — exactly like an absent one, returning any value
unchanged with no numeric check. -/
theorem default_number_falsy_offset (v : JSVal) (name : String) :
    defaultNumber v name (.num 0) = .ok v ∧
    defaultNumber v name .null = .ok v ∧
    defaultNumber v name .undef = .ok v ∧
    defaultNumber v name .nan = .ok v := by
  refine ⟨?_, rfl, rfl, rfl⟩
  simp [defaultNumber, truthy]

end MF
